import Mathlib

/-!
Verification of the Neon Drift Protocol vehicle-physics and road-curvature core.

The definitions below are a shallow embedding of the JavaScript sources
(src/js/modules/physics.js and the world module).  JavaScript numbers are
modelled by the rationals; the Math functions whose values are not rational
(Math.pow with a fractional exponent, Math.sqrt, Math.cos, Math.sin, Math.PI)
are abstracted into a `NumOps` record, and every theorem is parametric in it.
The two computations whose NaN behaviour matters are modelled separately with
`Option` (`none` standing for NaN).
-/

/-- A three.js `Vector3` over the rationals. -/
structure Vec3 where
  x : ℚ
  y : ℚ
  z : ℚ
deriving DecidableEq, Repr

def Vec3.add (a b : Vec3) : Vec3 := ⟨a.x + b.x, a.y + b.y, a.z + b.z⟩

def Vec3.sub (a b : Vec3) : Vec3 := ⟨a.x - b.x, a.y - b.y, a.z - b.z⟩

/-- `Vector3.multiplyScalar`. -/
def Vec3.smul (a : Vec3) (k : ℚ) : Vec3 := ⟨a.x * k, a.y * k, a.z * k⟩

def Vec3.dot (a b : Vec3) : ℚ := a.x * b.x + a.y * b.y + a.z * b.z

/-- Abstract stand-ins for the JavaScript Math functions whose exact values are
irrational.  `pow x y` stands for `Math.pow(x, y)`, `sqrt` for `Math.sqrt`,
`cos`/`sin` for `Math.cos`/`Math.sin` and `pi` for `Math.PI`.  All theorems in
this development hold for every choice of these operations. -/
structure NumOps where
  pow : ℚ → ℚ → ℚ
  sqrt : ℚ → ℚ
  cos : ℚ → ℚ
  sin : ℚ → ℚ
  pi : ℚ

/-- A concrete instantiation of `NumOps`, used only to evaluate the model at
concrete inputs in closed statements. -/
def dummyOps : NumOps :=
  { pow := fun _ _ => 0
    sqrt := fun _ => 0
    cos := fun _ => 1
    sin := fun _ => 0
    pi := 0 }

/-- `Math.sign` (the JavaScript sign function: 0 at 0). -/
def jsSign (q : ℚ) : ℚ := if 0 < q then 1 else if q < 0 then -1 else 0

/-- Truncation toward zero, as used by the JavaScript `%` operator. -/
def jsTrunc (q : ℚ) : ℤ := if 0 ≤ q then ⌊q⌋ else ⌈q⌉

/-- The JavaScript remainder operator `a % b`: the remainder carries the sign
of the dividend (truncated division). -/
def jsMod (a b : ℚ) : ℚ := a - b * jsTrunc (a / b)

/-- `applyMatrix4` with `makeRotationY θ`: `x' = cos θ · x + sin θ · z`,
`z' = -sin θ · x + cos θ · z`. -/
def Vec3.rotY (ops : NumOps) (θ : ℚ) (v : Vec3) : Vec3 :=
  ⟨ops.cos θ * v.x + ops.sin θ * v.z, v.y, -(ops.sin θ) * v.x + ops.cos θ * v.z⟩

/-- `Vector3.normalize`: three.js divides by `this.length() || 1`. -/
def Vec3.jsNormalize (ops : NumOps) (v : Vec3) : Vec3 :=
  let len := ops.sqrt (v.x * v.x + v.y * v.y + v.z * v.z)
  let d := if len = 0 then 1 else len
  v.smul (1 / d)

-- Physics constants (src/js/modules/physics.js, lines 11-33).
def MAX_SPEED : ℚ := 5000
def ACCELERATION : ℚ := 2000
def DECELERATION : ℚ := 800
def ENGINE_BRAKING : ℚ := 1
def DRAG_COEFFICIENT : ℚ := 15 / 100000
def OFF_ROAD_FRICTION : ℚ := 3 / 100
def OFF_ROAD_DAMAGE : ℚ := 10
def GRAVITY : ℚ := 98 / 10
def STEERING_SPEED : ℚ := 5 / 2
def STEERING_RETURN_SPEED : ℚ := 5
def WHEEL_BASE : ℚ := 6
def WHEEL_TRACK : ℚ := 4
def SUSPENSION_STIFFNESS : ℚ := 50
def SUSPENSION_DAMPING : ℚ := 4
def SUSPENSION_TRAVEL : ℚ := 1 / 2
def WHEEL_RADIUS : ℚ := 8 / 10
def WHEEL_MASS : ℚ := 20
def CHASSIS_MASS : ℚ := 400
def TOTAL_MASS : ℚ := CHASSIS_MASS + WHEEL_MASS * 4

/-- `MAX_STEERING_ANGLE = Math.PI / 4`. -/
def MAX_STEERING_ANGLE (ops : NumOps) : ℚ := ops.pi / 4

/-- The per-frame input snapshot (five boolean flags). -/
structure Input where
  accelerate : Bool
  brake : Bool
  reverse : Bool
  turnLeft : Bool
  turnRight : Bool
deriving DecidableEq, Repr

/-- One suspension wheel record (physics.js constructor, lines 60-93). -/
structure Wheel where
  pos : Vec3
  contactPoint : Vec3
  suspensionForce : ℚ
  compression : ℚ
  onGround : Bool
  isFront : Bool
deriving DecidableEq, Repr

/-- A road segment as far as the physics and road code read or write it:
its `position` vector and Euler rotation components. -/
structure Segment where
  position : Vec3
  rotX : ℚ
  rotY : ℚ
  rotZ : ℚ
deriving DecidableEq, Repr

/-- The vehicle state mutated each frame (physics.js constructor). -/
structure Vehicle where
  position : Vec3
  velocity : Vec3
  acceleration : Vec3
  direction : Vec3
  right : Vec3
  up : Vec3
  rotationY : ℚ
  angularVelocity : ℚ
  angularAcceleration : ℚ
  speed : ℚ
  wheelSpeed : ℚ
  steeringAngle : ℚ
  throttle : ℚ
  brake : ℚ
  reverse : ℚ
  isGrounded : Bool
  isOffRoad : Bool
  wasOffRoad : Bool
  wheels : List Wheel
deriving DecidableEq, Repr

def initialWheels : List Wheel :=
  [ ⟨⟨-2, 0, 3⟩, ⟨0, 0, 0⟩, 0, 0, true, true⟩,
    ⟨⟨2, 0, 3⟩, ⟨0, 0, 0⟩, 0, 0, true, true⟩,
    ⟨⟨-2, 0, -3⟩, ⟨0, 0, 0⟩, 0, 0, true, false⟩,
    ⟨⟨2, 0, -3⟩, ⟨0, 0, 0⟩, 0, 0, true, false⟩ ]

/-- The constructor state of `Vehicle` (physics.js lines 37-99). -/
def Vehicle.initial : Vehicle :=
  { position := ⟨0, 8 / 10, 0⟩
    velocity := ⟨0, 0, 0⟩
    acceleration := ⟨0, 0, 0⟩
    direction := ⟨0, 0, 1⟩
    right := ⟨1, 0, 0⟩
    up := ⟨0, 1, 0⟩
    rotationY := 0
    angularVelocity := 0
    angularAcceleration := 0
    speed := 0
    wheelSpeed := 0
    steeringAngle := 0
    throttle := 0
    brake := 0
    reverse := 0
    isGrounded := true
    isOffRoad := false
    wasOffRoad := false
    wheels := initialWheels }

/-- The delta time actually used by `Vehicle.update` (physics.js line 123):
`const dt = Math.min(deltaTime, 0.1)`.  Only an upper cap is applied. -/
def Vehicle.dtUsed (deltaTime : ℚ) : ℚ := min deltaTime (1 / 10)

/-- The initial-boost hack (physics.js lines 125-130): if speed is below 0.1
and the accelerate flag is held, speed is set to 30 and the velocity to
`(0, 0, 30)` before the rest of the frame pipeline runs. -/
def Vehicle.applyBoost (s : Vehicle) (inp : Input) : Vehicle :=
  if s.speed < 1 / 10 ∧ inp.accelerate then
    { s with speed := 30, velocity := ⟨0, 0, 30⟩ }
  else s

/-- `Vehicle.updateControls` (physics.js lines 162-218).  The
speed-scaled effective steering angle computed at lines 207-210 is applied
only to the front-wheel render meshes, not to the physics state; its NaN
analysis is modelled separately by `steeringSpeedFactor`. -/
def Vehicle.updateControls (ops : NumOps) (s : Vehicle) (inp : Input) (dt : ℚ) :
    Vehicle :=
  let brake' : ℚ := if inp.brake then 1 else 0
  let reverse' : ℚ := if inp.reverse then 1 else 0
  let throttle' : ℚ := if inp.accelerate ∧ ¬inp.brake then 1 else 0
  let steer :=
    if inp.turnLeft then
      min (s.steeringAngle + STEERING_SPEED * dt) (MAX_STEERING_ANGLE ops)
    else if inp.turnRight then
      max (s.steeringAngle - STEERING_SPEED * dt) (-(MAX_STEERING_ANGLE ops))
    else if |s.steeringAngle| < STEERING_RETURN_SPEED * dt then 0
    else s.steeringAngle - jsSign s.steeringAngle * STEERING_RETURN_SPEED * dt
  { s with brake := brake', reverse := reverse', throttle := throttle',
           steeringAngle := steer }

/-- `Vehicle.getWheelWorldPosition` (physics.js lines 606-620). -/
def Vehicle.getWheelWorldPosition (ops : NumOps) (s : Vehicle) (w : Wheel) :
    Vec3 :=
  (w.pos.rotY ops s.rotationY).add s.position

/-- `Vehicle.updateSuspension` (physics.js lines 223-273); the ground is the
flat plane `y = 0` and the rest length is `WHEEL_RADIUS + SUSPENSION_TRAVEL`. -/
def Vehicle.updateSuspension (ops : NumOps) (s : Vehicle) : Vehicle :=
  let restLength := WHEEL_RADIUS + SUSPENSION_TRAVEL
  let wheels' := s.wheels.map (fun w =>
    let wheelPos := s.getWheelWorldPosition ops w
    let compressionDistance := max 0 (restLength - (wheelPos.y - 0))
    let onGround := decide (0 < compressionDistance)
    let w := { w with compression := compressionDistance / restLength,
                      onGround := onGround }
    if onGround then
      let springForce := compressionDistance * SUSPENSION_STIFFNESS
      let dampingForce := s.velocity.y * SUSPENSION_DAMPING
      { w with suspensionForce := springForce - dampingForce,
               contactPoint := { wheelPos with y := 0 } }
    else { w with suspensionForce := 0 })
  { s with wheels := wheels', isGrounded := wheels'.any (fun w => w.onGround) }

/-- The tractive-force case analysis of `Vehicle.calculateForces`
(physics.js lines 288-322); the force is zero when not grounded. -/
def Vehicle.tractiveForce (ops : NumOps) (s : Vehicle) : ℚ :=
  if s.isGrounded then
    if 0 < s.throttle ∧ -1 ≤ s.speed then
      let r := max 0 (min 1 (s.speed / MAX_SPEED))
      let accelerationMultiplier := 18 / 10 * ops.pow (1 - r) (3 / 2) + 2 / 10
      ACCELERATION * accelerationMultiplier * s.throttle
    else if 0 < s.brake then
      -(jsSign s.speed) * DECELERATION * 6 * s.brake
    else if 0 < s.reverse then
      if 5 < s.speed then -DECELERATION * 2 * s.reverse
      else if 0 < s.speed then -DECELERATION * (5 / 2) * s.reverse
      else -ACCELERATION * (4 / 10) * s.reverse
    else -(jsSign s.speed) * ENGINE_BRAKING
  else 0

/-- `Vehicle.calculateForces` (physics.js lines 278-400). -/
def Vehicle.calculateForces (ops : NumOps) (s : Vehicle) : Vehicle :=
  let acc0 : Vec3 := ⟨0, 0, 0⟩
  let acc1 := if ¬s.isGrounded then { acc0 with y := acc0.y - GRAVITY } else acc0
  let tractive := s.tractiveForce ops
  let dragForce := -(jsSign s.speed) * DRAG_COEFFICIENT * s.speed * s.speed
  let rollingResistance :=
    if s.isGrounded then
      -(jsSign s.speed) * (if s.isOffRoad then OFF_ROAD_FRICTION else 1 / 1000)
        * |s.speed|
    else 0
  let totalLongitudinalForce := tractive + dragForce + rollingResistance
  let forwardAcceleration := totalLongitudinalForce / TOTAL_MASS
  let acc2 := acc1.add (s.direction.smul forwardAcceleration)
  let cornering :=
    if s.isGrounded ∧ 1 / 2 < |s.speed| then
      let steeringFactor := s.steeringAngle / (WHEEL_BASE * (1 / 2))
      let speedFactor := max (2 / 10) (min 1 (|s.speed| / 30))
      let directionFactor : ℚ := if s.speed < 0 then -1 else 1
      let angular := directionFactor * steeringFactor *
        ops.sqrt (|s.speed| * 20) * speedFactor
      let acc3 :=
        if 1 / 4 < |s.steeringAngle| ∧ MAX_SPEED * (6 / 10) < |s.speed| then
          let tractionLoss := min (7 / 10)
            ((|s.steeringAngle| * |s.speed|) /
              (MAX_STEERING_ANGLE ops * MAX_SPEED * (15 / 10)))
          let speedDampening := 1 / (1 + |s.speed| / 2000)
          let driftAcceleration := |s.speed| * tractionLoss * (4 / 10) * speedDampening
          let steeringSign := jsSign s.steeringAngle
          let directionMultiplier : ℚ := if s.speed < 0 then -1 else 1
          acc2.add (s.right.smul (steeringSign * directionMultiplier * driftAcceleration))
        else acc2
      (acc3, angular)
    else (acc2, 0)
  { s with acceleration := cornering.1, angularAcceleration := cornering.2 }

/-- `Vehicle.integrate` (physics.js lines 405-451), including the ground
clamp at lines 439-446. -/
def Vehicle.integrate (s : Vehicle) (dt : ℚ) : Vehicle :=
  let forwardSpeed := s.velocity.dot s.direction
  let verticalVelocity := s.velocity.y
  let forwardAccel := s.acceleration.dot s.direction
  let newForwardSpeed := forwardSpeed + forwardAccel * dt
  let lateralVelocity := (s.velocity.sub (s.direction.smul forwardSpeed)).smul (98 / 100)
  let vel1 := (s.direction.smul newForwardSpeed).add lateralVelocity
  let vel2 := { vel1 with y := verticalVelocity + s.acceleration.y * dt }
  let angularVelocity' := s.angularVelocity + s.angularAcceleration * dt
  let rotationY' := s.rotationY + angularVelocity' * dt
  let pos1 := s.position.add (vel2.smul dt)
  let grounded := pos1.y < 1 / 2
  let pos2 := if grounded then { pos1 with y := 1 / 2 } else pos1
  let vel3 := if grounded ∧ vel2.y < 0 then { vel2 with y := 0 } else vel2
  { s with velocity := vel3, speed := newForwardSpeed,
           angularVelocity := angularVelocity' * (97 / 100),
           rotationY := rotationY', position := pos2 }

/-- `Vehicle.checkSurfaceInteraction` (physics.js lines 456-555).  `world`
is `none` when no segment data is available (the fallback band test),
otherwise the list of road segments. -/
def Vehicle.checkSurfaceInteraction (ops : NumOps) (s : Vehicle)
    (world : Option (List Segment)) (inp : Input) (dt : ℚ) : Vehicle :=
  let wasOff := s.isOffRoad
  let roadHalfWidth : ℚ := 15
  let offAndX : Bool × ℚ :=
    match world with
    | some segs =>
      let closest := segs.foldl
        (fun (best : Option (Segment × ℚ)) seg =>
          let zDistance := |seg.position.z - s.position.z|
          match best with
          | none => some (seg, zDistance)
          | some b => if zDistance < b.2 then some (seg, zDistance) else best)
        none
      match closest with
      | some (seg, zDist) =>
        if zDist < 30 then
          let localPoint0 := s.position.sub seg.position
          let localPoint :=
            if seg.rotY ≠ 0 then localPoint0.rotY ops (-seg.rotY) else localPoint0
          (decide (roadHalfWidth < |localPoint.x|), localPoint.x)
        else (true, 0)
      | none => (true, 0)
    | none => (decide (roadHalfWidth < |s.position.x|), s.position.x)
  let isOff := offAndX.1
  let closestSegmentX := offAndX.2
  let s := { s with isOffRoad := isOff }
  let s : Vehicle :=
    if isOff then
      let s : Vehicle := { s with speed := s.speed * (9998 / 10000) }
      let s : Vehicle :=
        if ¬inp.turnLeft ∧ ¬inp.turnRight then
          let roadForce := -(jsSign closestSegmentX) * (5 / 10000) * dt * min 5 s.speed
          { s with steeringAngle :=
              (1 - 1 / 100) * s.steeringAngle + (1 / 100) * roadForce }
        else s
      if wasOff = false ∧ 20 < |s.speed| then
        let speedReduction := min (|s.speed| * (5 / 1000)) (OFF_ROAD_DAMAGE / 4)
        let s := { s with speed := s.speed * ((|s.speed| - speedReduction) / |s.speed|) }
        { s with velocity := { s.velocity with y := s.velocity.y + 3 / 10 } }
      else s
    else s
  { s with wasOffRoad := s.isOffRoad }

/-- `Vehicle.updateWheelRotation` (physics.js lines 560-579); only the
`wheelSpeed` scalar is physics state, the wheel-mesh spins are cosmetic. -/
def Vehicle.updateWheelRotation (s : Vehicle) : Vehicle :=
  { s with wheelSpeed := s.speed / WHEEL_RADIUS }

/-- `Vehicle.updateVehicleVectors` (physics.js lines 584-601). -/
def Vehicle.updateVehicleVectors (ops : NumOps) (s : Vehicle) : Vehicle :=
  let dir := (Vec3.rotY ops s.rotationY ⟨0, 0, 1⟩).jsNormalize ops
  let rgt := (Vec3.rotY ops s.rotationY ⟨1, 0, 0⟩).jsNormalize ops
  let upv := Vec3.jsNormalize ops ⟨0, 1, 0⟩
  { s with direction := dir, right := rgt, up := upv }

/-- The frame pipeline of `Vehicle.update` after the initial-boost hack
(physics.js lines 132-151). -/
def Vehicle.updateTail (ops : NumOps) (s : Vehicle) (inp : Input) (dt : ℚ)
    (world : Option (List Segment)) : Vehicle :=
  let s := s.updateControls ops inp dt
  let s := s.updateSuspension ops
  let s := s.calculateForces ops
  let s := s.integrate dt
  let s := s.checkSurfaceInteraction ops world inp dt
  let s := s.updateWheelRotation
  s.updateVehicleVectors ops

/-- `Vehicle.update` (physics.js lines 114-157): stores the previous
off-road flag, caps the delta time at 0.1 s, applies the initial-boost hack
and then runs the frame pipeline.  The whole frame is a pure function of the
previous state, the input snapshot, the delta time and the world segments:
no randomness enters (`Math.random` occurs only in `collideWithObstacle`). -/
def Vehicle.update (ops : NumOps) (s : Vehicle) (inp : Input) (deltaTime : ℚ)
    (world : Option (List Segment)) : Vehicle :=
  let dt := Vehicle.dtUsed deltaTime
  let s := { s with wasOffRoad := s.isOffRoad }
  let s := s.applyBoost inp
  Vehicle.updateTail ops s inp dt world

-- World constants (world module, lines 13-16).
def ROAD_SEGMENTS : ℕ := 200
def ROAD_LENGTH : ℚ := 2000
def SEGMENT_LENGTH : ℚ := ROAD_LENGTH / 200
def LANE_WIDTH : ℚ := 10

/-- `GameWorld.cubicEase` (world module): `t * t * (3 - 2 * t)`. -/
def GameWorld.cubicEase (t : ℚ) : ℚ := t * t * (3 - 2 * t)

/-- The track definition: the fixed ordered list of
(normalized cycle position, turn intensity) control points.  The world module
inlines identical copies of this list in `createRoad`, `positionRoadSegment`
and `getTrackXPositionAtZ`. -/
def trackPoints : List (ℚ × ℚ) :=
  [ (0, 0), (15 / 100, -1), (30 / 100, 0), (35 / 100, 0), (50 / 100, 1),
    (65 / 100, 0), (70 / 100, 0), (85 / 100, -(6 / 10)), (1, 0) ]

/-- The bracketing loop shared by the three inlined copies of the track
computation: scan consecutive control-point pairs, selecting the first pair
`(p1, p2)` with `p1.pos ≤ pattern < p2.pos`; the default when no pair matches
is (first point, last point). -/
def findBracketAux (pattern : ℚ) : List (ℚ × ℚ) → Option ((ℚ × ℚ) × (ℚ × ℚ))
  | p1 :: p2 :: rest =>
    if p1.1 ≤ pattern ∧ pattern < p2.1 then some (p1, p2)
    else findBracketAux pattern (p2 :: rest)
  | _ => none

def findBracket (pattern : ℚ) : (ℚ × ℚ) × (ℚ × ℚ) :=
  (findBracketAux pattern trackPoints).getD
    (trackPoints.headD (0, 0), (trackPoints.getLastD (0, 0)))

/-- The turn value at a cycle position: eased linear interpolation between the
two bracketing control points. -/
def turnValueAt (pattern : ℚ) : ℚ :=
  let pr := findBracket pattern
  let p1 := pr.1
  let p2 := pr.2
  let segmentProgress := (pattern - p1.1) / (p2.1 - p1.1)
  p1.2 + (p2.2 - p1.2) * GameWorld.cubicEase segmentProgress

/-- The lateral offset for a longitudinal track position, shared body of
`getTrackXPositionAtZ` and `positionRoadSegment`: the pattern position is the
JavaScript remainder `z % ROAD_LENGTH` divided by `ROAD_LENGTH`, and the
offset is the turn value scaled by `LANE_WIDTH * 5.0`. -/
def trackXFromZ (z : ℚ) : ℚ :=
  turnValueAt (jsMod z ROAD_LENGTH / ROAD_LENGTH) * LANE_WIDTH * 5

/-- `GameWorld.getTrackXPositionAtZ` (world module lines 1156-1198). -/
def GameWorld.getTrackXPositionAtZ (zPosition : ℚ) : ℚ := trackXFromZ zPosition

/-- `GameWorld.positionRoadSegment` (world module lines 901-953): resets the
segment rotation (flat on the ground, no yaw or roll) and sets the lateral
offset from the track pattern at `segmentZ`.  The `playerZ` parameter is
unused by the body, as in the source. -/
def GameWorld.positionRoadSegment (ops : NumOps) (segment : Segment)
    (_playerZ segmentZ : ℚ) : Segment :=
  { segment with
      rotX := -(ops.pi) / 2
      rotY := 0
      rotZ := 0
      position := { segment.position with x := trackXFromZ segmentZ } }

/-- The road bookkeeping state of `GameWorld` that the recycling code reads
and writes (constructor plus fields first assigned in `createRoad` and
`recycleRoadSegments`). -/
structure GameWorld where
  roadSegments : List Segment
  roadZMin : ℚ
  roadZMax : ℚ
  lastRecycleFrame : ℕ
  initialBoundsCalculated : Bool
  updateCount : ℕ
  playerZPosition : ℚ
deriving DecidableEq, Repr

/-- One segment of `createRoad` (world module lines 134-192): flat rotation,
`z = i * SEGMENT_LENGTH`, and the lateral offset computed from the same
inlined track pattern. -/
def initialSegment (ops : NumOps) (i : ℕ) : Segment :=
  { position := ⟨trackXFromZ ((i : ℚ) * SEGMENT_LENGTH), 0, (i : ℚ) * SEGMENT_LENGTH⟩
    rotX := -(ops.pi) / 2
    rotY := 0
    rotZ := 0 }

/-- The world state after `init`/`createRoad` (world module lines 120-198):
`ROAD_SEGMENTS * 5 = 1000` segments, `roadZMin = 0`,
`roadZMax = 1000 * SEGMENT_LENGTH = 10000`. -/
def GameWorld.initial (ops : NumOps) : GameWorld :=
  { roadSegments := (List.range (ROAD_SEGMENTS * 5)).map (initialSegment ops)
    roadZMin := 0
    roadZMax := (ROAD_SEGMENTS * 5 : ℕ) * SEGMENT_LENGTH
    lastRecycleFrame := 0
    initialBoundsCalculated := false
    updateCount := 0
    playerZPosition := 0 }

/-- The emergency quick-extension loop of `recycleRoadSegments` (world module
lines 805-814): for the first 50 array indices, any segment more than 500
behind the player is moved to `maxZ + SEGMENT_LENGTH` and repositioned; the
counter argument is the number of indices still to visit. -/
def quickLoop (ops : NumOps) (playerZ : ℚ) :
    ℕ → List Segment → ℚ → List Segment × ℚ
  | _, [], maxZ => ([], maxZ)
  | 0, segs, maxZ => (segs, maxZ)
  | n + 1, seg :: rest, maxZ =>
    let moved : Segment × ℚ :=
      if 500 < playerZ - seg.position.z then
        let newZ := maxZ + SEGMENT_LENGTH
        (GameWorld.positionRoadSegment ops
          { seg with position := { seg.position with z := newZ } } playerZ newZ,
         newZ)
      else (seg, maxZ)
    let tail := quickLoop ops playerZ n rest moved.2
    (moved.1 :: tail.1, tail.2)

/-- The main recycling loop of `recycleRoadSegments` (world module lines
867-888): sequentially over the array, while fewer than 50 segments have been
recycled, any segment more than `safeRecycleDistance = 1000` behind the player
is moved to `maxZ + SEGMENT_LENGTH` and repositioned; after each iteration the
loop breaks once `maxZ - playerZ` exceeds `minimumAheadDistance = 3000`.
Returns the updated segments, `maxZ`, and the recycled count. -/
def fullLoop (ops : NumOps) (playerZ : ℚ) :
    List Segment → ℚ → ℕ → List Segment × ℚ × ℕ
  | [], maxZ, recycled => ([], maxZ, recycled)
  | seg :: rest, maxZ, recycled =>
    if 50 ≤ recycled then (seg :: rest, maxZ, recycled)
    else
      let moved : Segment × ℚ × ℕ :=
        if 1000 < playerZ - seg.position.z then
          let newZ := maxZ + SEGMENT_LENGTH
          (GameWorld.positionRoadSegment ops
            { seg with position := { seg.position with z := newZ } } playerZ newZ,
           newZ, recycled + 1)
        else (seg, maxZ, recycled)
      if 3000 < moved.2.1 - playerZ then (moved.1 :: rest, moved.2.1, moved.2.2)
      else
        let tail := fullLoop ops playerZ rest moved.2.1 moved.2.2
        (moved.1 :: tail.1, tail.2.1, tail.2.2)

/-- The sampled segment z positions used for the bounds resampling (world
module lines 834-843): every 4th array index. -/
def sampleZs : List Segment → ℕ → List ℚ
  | [], _ => []
  | seg :: rest, i =>
    if i % 4 = 0 then seg.position.z :: sampleZs rest (i + 1)
    else sampleZs rest (i + 1)

/-- The bounds-resampling block of `recycleRoadSegments` (world module lines
829-849): when the initial bounds were never calculated or a full recycle is
due, recompute `roadZMin`/`roadZMax` from every 4th segment, starting from
the current values with the JavaScript falsy fallbacks
`this.roadZMax || -Infinity` and `this.roadZMin || Infinity` (modelled with
`WithBot`/`WithTop`; the `unbot' 0` default is unreachable because the caller
has checked the segment list is nonempty, so index 0 is always sampled). -/
def GameWorld.resampleBounds (w : GameWorld) (shouldRecycle : Bool) : GameWorld :=
  if ¬w.initialBoundsCalculated ∨ shouldRecycle then
    let samples := sampleZs w.roadSegments 0
    let maxInit : WithBot ℚ := if w.roadZMax = 0 then ⊥ else (w.roadZMax : ℚ)
    let minInit : WithTop ℚ := if w.roadZMin = 0 then ⊤ else (w.roadZMin : ℚ)
    let maxZ := samples.foldl (fun m z => max m (z : WithBot ℚ)) maxInit
    let minZ := samples.foldl (fun m z => min m (z : WithTop ℚ)) minInit
    { w with
        roadZMin := minZ.untop' 0
        roadZMax := maxZ.unbot' 0
        initialBoundsCalculated := true }
  else w

/-- The full-processing part of `recycleRoadSegments` (world module lines
822-894), reached when `shouldRecycle` is set or when `this.roadZMax` is
falsy.  Recomputes the sampled min/max bounds when required, then extends the
road when less than `minimumAheadDistance = 3000` remains ahead. -/
def GameWorld.fullProcess (ops : NumOps) (w : GameWorld) (playerZ : ℚ)
    (shouldRecycle : Bool) : GameWorld :=
  if w.roadSegments.isEmpty then w
  else
    let w : GameWorld := GameWorld.resampleBounds w shouldRecycle
    let roadAheadDistance := w.roadZMax - playerZ
    if roadAheadDistance < 3000 then
      let res := fullLoop ops playerZ w.roadSegments w.roadZMax 0
      let w := { w with roadSegments := res.1 }
      if 0 < res.2.2 then { w with roadZMax := res.2.1 } else w
    else w

/-- `GameWorld.recycleRoadSegments` (world module lines 782-895).  The call
counter `lastRecycleFrame` is incremented on every call; every 10th call runs
the full processing, otherwise (when `roadZMax` is truthy) only the quick
emergency-extension check runs. -/
def GameWorld.recycleRoadSegments (ops : NumOps) (w : GameWorld) (playerZ : ℚ) :
    GameWorld :=
  let lrf := w.lastRecycleFrame + 1
  if 10 ≤ lrf then
    GameWorld.fullProcess ops { w with lastRecycleFrame := 0 } playerZ true
  else if w.roadZMax = 0 then
    GameWorld.fullProcess ops { w with lastRecycleFrame := lrf } playerZ false
  else
    let w := { w with lastRecycleFrame := lrf }
    let quickAheadDistance := w.roadZMax - playerZ
    if quickAheadDistance < 500 then
      let res := quickLoop ops playerZ 50 w.roadSegments w.roadZMax
      { w with roadSegments := res.1, roadZMax := res.2 }
    else w

/-- `GameWorld.updateRoad` (world module lines 757-777). -/
def GameWorld.updateRoad (ops : NumOps) (w : GameWorld) (playerSpeed : ℚ)
    (playerPosition : Option Vec3) : GameWorld :=
  match playerPosition with
  | none => w
  | some p =>
    let playerZ := p.z
    let w := { w with playerZPosition := playerZ }
    let distanceToRoadEnd := w.roadZMax - playerZ
    let w :=
      if distanceToRoadEnd < 500 then GameWorld.recycleRoadSegments ops w playerZ
      else w
    if 0 < playerSpeed ∧ w.updateCount % 3 = 0 then
      GameWorld.recycleRoadSegments ops w playerZ
    else w

/-- The road-relevant part of one `GameWorld.update` frame (world module lines
708-736): increment `updateCount`, set the first-frame player reference, run
the early-game road check, then `updateRoad`. -/
def GameWorld.updateRoadFrame (ops : NumOps) (w : GameWorld) (playerSpeed : ℚ)
    (playerPosition : Option Vec3) : GameWorld :=
  let w := { w with updateCount := w.updateCount + 1 }
  let w : GameWorld :=
    match playerPosition with
    | some p => if w.updateCount = 1 then { w with playerZPosition := p.z } else w
    | none => w
  let w : GameWorld :=
    match playerPosition with
    | some p =>
      if w.updateCount < 100 ∧ w.updateCount % 20 = 0 ∧ w.roadZMax - p.z < 2000 then
        GameWorld.recycleRoadSegments ops w p.z
      else w
    | none => w
  GameWorld.updateRoad ops w playerSpeed playerPosition

/-- The steering-effectiveness factor of `updateControls` (physics.js lines
207-210), modelled NaN-aware over `Option ℚ` (`none` is NaN):
`Math.max(0.15, 1.0 - Math.pow(this.speed / MAX_SPEED, 0.7) * 0.85)`.
In JavaScript `Math.pow` with a negative base and the fractional exponent 0.7
is NaN, and NaN propagates through `*`, `-` and `Math.max`.  `pow07 b` stands
for the value of `Math.pow(b, 0.7)` at nonnegative bases `b`; no theorem
depends on its values. -/
def steeringSpeedFactor (pow07 : ℚ → ℚ) (speed : ℚ) : Option ℚ :=
  let base := speed / MAX_SPEED
  if base < 0 then none
  else some (max (15 / 100) (1 - pow07 base * (85 / 100)))

/-- The velocity rescale of `Vehicle.collideWithObstacle` (physics.js lines
700-709), modelled NaN-aware: the new signed speed is
`Math.sign(s) * Math.max(0, |s| - Math.min(|s|, 60))` and the velocity is
multiplied by `newSpeed / oldSpeed`; in JavaScript `0 / 0` is NaN, which the
scalar multiplication spreads through every component. -/
def collideVelocityRescale (oldSpeed : ℚ) (v : Vec3) : Option Vec3 :=
  let speedReduction := min |oldSpeed| 60
  let newSpeed := jsSign oldSpeed * max 0 (|oldSpeed| - speedReduction)
  if oldSpeed = 0 then none
  else some (v.smul (newSpeed / oldSpeed))

/-- The per-frame observables named by the determinism contract. -/
structure TrajPoint where
  position : Vec3
  velocity : Vec3
  speed : ℚ
  rotationY : ℚ
  steeringAngle : ℚ
  isOffRoad : Bool
deriving DecidableEq, Repr

def Vehicle.observe (s : Vehicle) : TrajPoint :=
  ⟨s.position, s.velocity, s.speed, s.rotationY, s.steeringAngle, s.isOffRoad⟩

/-- The trajectory of observables produced by running `Vehicle.update` over a
sequence of (input snapshot, delta time) frames against fixed world segment
data. -/
def Vehicle.trajectory (ops : NumOps) (s : Vehicle)
    (frames : List (Input × ℚ)) (world : Option (List Segment)) :
    List TrajPoint :=
  match frames with
  | [] => []
  | f :: rest =>
    let s' := Vehicle.update ops s f.1 f.2 world
    s'.observe :: Vehicle.trajectory ops s' rest world

/-- One frame of the bounded-speed run used against the road-supply claim:
the vehicle advances by `MAX_SPEED * 0.1 = 500` units (the largest per-frame
advance the capped integrator allows at top speed) and then the world update
runs. -/
def c5Step (ops : NumOps) (wz : GameWorld × ℚ) : GameWorld × ℚ :=
  let z := wz.2 + MAX_SPEED * (1 / 10)
  (GameWorld.updateRoadFrame ops wz.1 MAX_SPEED (some ⟨0, 0, z⟩), z)

/-- The run after `n` frames, starting from the freshly created world and the
vehicle at `z = 0`. -/
def c5Run (ops : NumOps) : ℕ → GameWorld × ℚ
  | 0 => (GameWorld.initial ops, 0)
  | n + 1 => c5Step ops (c5Run ops n)

/-- The tractive-force case analysis as the specification words it
(spec §4.1 step 4): throttle branch without the throttle factor (throttle is
1 when active), brake branch scaled by the brake level, reverse branches with
the explicit constants, and engine braking otherwise.  Compared against the
source-derived `Vehicle.tractiveForce` in the C1 refinement theorem. -/
def specTractiveForce (ops : NumOps) (s : Vehicle) : ℚ :=
  if 0 < s.throttle ∧ -1 ≤ s.speed then
    ACCELERATION *
      (18 / 10 * ops.pow (1 - max 0 (min 1 (s.speed / MAX_SPEED))) (3 / 2) + 2 / 10)
  else if 0 < s.brake then
    -(jsSign s.speed) * DECELERATION * 6 * s.brake
  else if 0 < s.reverse then
    if 5 < s.speed then -2 * DECELERATION
    else if 0 < s.speed then -(5 / 2) * DECELERATION
    else -(4 / 10) * ACCELERATION
  else -(jsSign s.speed) * ENGINE_BRAKING

/-- A road segment carries the lateral offset the curvature function
prescribes for its current longitudinal position. -/
def roadOffsetFresh (seg : Segment) : Prop :=
  seg.position.x = GameWorld.getTrackXPositionAtZ seg.position.z

/-- A one-segment world used to instantiate the recycling invariant. -/
def c4World : GameWorld :=
  { roadSegments := [⟨⟨0, 0, 0⟩, 0, 0, 0⟩]
    roadZMin := 0
    roadZMax := 10
    lastRecycleFrame := 0
    initialBoundsCalculated := false
    updateCount := 0
    playerZPosition := 0 }

/-- A vehicle cruising forward at speed 100, used as a concrete input. -/
def cruisingVehicle : Vehicle :=
  { Vehicle.initial with speed := 100, velocity := ⟨0, 0, 100⟩ }

/-- A vehicle about to fall through the ground plane: at minimum clearance
with a strong downward velocity. -/
def fallingVehicle : Vehicle :=
  { Vehicle.initial with position := ⟨0, 1 / 2, 0⟩, velocity := ⟨0, -10, 0⟩ }

/-- C1: for every frame in which the vehicle is grounded (with the 0/1 control
levels produced by control resolution), the tractive force computed by
`calculateForces` follows the spec's case analysis with the stated constants:
throttle active and speed ≥ -1 gives `ACCELERATION * (1.8*(1-r)^1.5 + 0.2)`
with `r = clamp(speed/MAX_SPEED, 0, 1)`; else brake active gives
`-sign(speed) * DECELERATION * 6.0 * brake`; else reverse active gives
`-2.0*DECELERATION` for speed > 5, `-2.5*DECELERATION` for 0 < speed ≤ 5 and
`-0.4*ACCELERATION` for speed ≤ 0; otherwise `-sign(speed) * ENGINE_BRAKING`. -/
theorem c1_tractive_force_cases (ops : NumOps) (s : Vehicle)
    (hg : s.isGrounded = true) (ht : s.throttle = 0 ∨ s.throttle = 1)
    (hr : s.reverse = 0 ∨ s.reverse = 1) :
    Vehicle.tractiveForce ops s = specTractiveForce ops s := by
  unfold Vehicle.tractiveForce specTractiveForce
  rw [hg, if_pos rfl]
  split_ifs with hth hbr hrv h5 h0
  · rcases ht with h1 | h1
    · rw [h1] at hth; exact absurd hth.1 (lt_irrefl 0)
    · rw [h1]; ring
  · rfl
  · rcases hr with h2 | h2
    · rw [h2] at hrv; exact absurd hrv (lt_irrefl 0)
    · rw [h2]; ring
  · rcases hr with h2 | h2
    · rw [h2] at hrv; exact absurd hrv (lt_irrefl 0)
    · rw [h2]; ring
  · rcases hr with h2 | h2
    · rw [h2] at hrv; exact absurd hrv (lt_irrefl 0)
    · rw [h2]; ring
  · rfl

/-- C1 witness: the refinement theorem applied to a concrete grounded state
(throttle 1, speed 100), its hypotheses discharged there. -/
theorem c1_witness :
    Vehicle.tractiveForce dummyOps { Vehicle.initial with throttle := 1, speed := 100 } =
      specTractiveForce dummyOps { Vehicle.initial with throttle := 1, speed := 100 } :=
  c1_tractive_force_cases dummyOps _ rfl (Or.inr rfl) (Or.inl rfl)

/-- C2: determinism of the per-frame update.  `Vehicle.update` is a pure
function of (state, input flags, delta time, world segments) — the embedding
of the frame pipeline draws no randomness (`Math.random` occurs only in
`collideWithObstacle`, outside the update path) — so two runs from identical
initial states over the same (input, deltaTime) frame sequence with the same
segment data produce identical trajectories of (position, velocity, speed,
yaw, steeringAngle, isOffRoad). -/
theorem c2_deterministic_trajectory (ops : NumOps) (world : Option (List Segment))
    (frames : List (Input × ℚ)) (s1 s2 : Vehicle) (h : s1 = s2) :
    Vehicle.trajectory ops s1 frames world = Vehicle.trajectory ops s2 frames world := by
  rw [h]

/-- C2 witness: the determinism theorem applied at the constructor state over
a one-frame accelerate run. -/
theorem c2_witness :
    Vehicle.trajectory dummyOps Vehicle.initial
        [(⟨true, false, false, false, false⟩, 1 / 10)] none =
      Vehicle.trajectory dummyOps Vehicle.initial
        [(⟨true, false, false, false, false⟩, 1 / 10)] none :=
  c2_deterministic_trajectory dummyOps none _ Vehicle.initial Vehicle.initial rfl

/-- C6: after control resolution the resolved throttle is 1 exactly when the
accelerate flag is set and the brake flag is not, and 0 otherwise; in
particular whenever the brake flag is set (so also when both flags are set),
the resolved throttle is 0. -/
theorem c6_brake_overrides_throttle (ops : NumOps) (s : Vehicle) (inp : Input)
    (dt : ℚ) :
    (Vehicle.updateControls ops s inp dt).throttle =
      (if inp.accelerate ∧ ¬inp.brake then 1 else 0) ∧
    (inp.brake = true → (Vehicle.updateControls ops s inp dt).throttle = 0) := by
  refine ⟨rfl, fun hb => ?_⟩
  simp [Vehicle.updateControls, hb]

/-- C6 witness: with both the accelerate and brake flags set, the resolved
throttle is 0. -/
theorem c6_witness :
    (Vehicle.updateControls dummyOps Vehicle.initial
        ⟨true, true, false, false, false⟩ (1 / 10)).throttle = 0 :=
  (c6_brake_overrides_throttle dummyOps Vehicle.initial
    ⟨true, true, false, false, false⟩ (1 / 10)).2 rfl

/-- C9 counterexample: the delta-time guard is only an upper cap.  A negative
delta time (-5 s) is used unchanged (`dtUsed (-5) = -5`), and it reaches the
integration step: one update with deltaTime = -5 carries a vehicle cruising
forward at +z to a negative z position (it integrates backwards). -/
theorem c9_counterexample :
    Vehicle.dtUsed (-5) = -5 ∧
    (Vehicle.update dummyOps cruisingVehicle
        ⟨false, false, false, false, false⟩ (-5) none).position.z < 0 := by
  with_unfolding_all decide

/-- C9 (amended): the delta time used by the integrator never exceeds 0.1 s;
any delta time at most 0.1 — including zero and negative values — passes
through unchanged (there is no lower clamp; NaN is outside the rational
model). -/
theorem c9_dt_upper_cap_only (deltaTime : ℚ) :
    Vehicle.dtUsed deltaTime ≤ 1 / 10 ∧
    (deltaTime ≤ 1 / 10 → Vehicle.dtUsed deltaTime = deltaTime) :=
  ⟨min_le_right _ _, fun h => min_eq_left h⟩

/-- C9 witness: the cap theorem applied at deltaTime = -2. -/
theorem c9_witness : Vehicle.dtUsed (-2) ≤ 1 / 10 ∧ Vehicle.dtUsed (-2) = -2 :=
  ⟨(c9_dt_upper_cap_only (-2)).1, (c9_dt_upper_cap_only (-2)).2 (by norm_num)⟩

/-- C10: whenever the accelerate flag is set while the current speed is below
0.1, the update sets speed to 30.0 and velocity to (0, 0, 30) before control
resolution and force integration: the boost step produces exactly that state,
and `Vehicle.update` is the frame pipeline applied after the boost step. -/
theorem c10_initial_boost (s : Vehicle) (inp : Input) (h1 : s.speed < 1 / 10)
    (h2 : inp.accelerate = true) :
    (Vehicle.applyBoost s inp).speed = 30 ∧
    (Vehicle.applyBoost s inp).velocity = ⟨0, 0, 30⟩ ∧
    ∀ (ops : NumOps) (deltaTime : ℚ) (world : Option (List Segment)),
      Vehicle.update ops s inp deltaTime world =
        Vehicle.updateTail ops
          (Vehicle.applyBoost { s with wasOffRoad := s.isOffRoad } inp) inp
          (Vehicle.dtUsed deltaTime) world := by
  refine ⟨?_, ?_, fun ops deltaTime world => rfl⟩ <;>
    · unfold Vehicle.applyBoost
      rw [if_pos (show s.speed < 1 / 10 ∧ inp.accelerate = true from ⟨h1, h2⟩)]

/-- C10 witness: the boost theorem applied at the constructor state (speed 0)
with the accelerate flag held. -/
theorem c10_witness :
    (Vehicle.applyBoost Vehicle.initial ⟨true, false, false, false, false⟩).speed = 30 ∧
    (Vehicle.applyBoost Vehicle.initial ⟨true, false, false, false, false⟩).velocity =
      ⟨0, 0, 30⟩ :=
  ⟨(c10_initial_boost Vehicle.initial ⟨true, false, false, false, false⟩
      (by with_unfolding_all decide) rfl).1,
   (c10_initial_boost Vehicle.initial ⟨true, false, false, false, false⟩
      (by with_unfolding_all decide) rfl).2.1⟩

/-- C3 counterexample: the curvature function is not periodic at negative
positions.  The JavaScript remainder keeps the dividend's sign, so at
z = -100 the pattern position is negative, no control-point pair brackets it,
and the fallback pair (first point, last point) gives offset 0, while
z = -100 + ROAD_LENGTH = 1900 lies in the final turn and gives offset -70/9. -/
theorem c3_counterexample :
    GameWorld.getTrackXPositionAtZ (-100) ≠
      GameWorld.getTrackXPositionAtZ (-100 + ROAD_LENGTH) := by
  with_unfolding_all decide

theorem jsMod_add_self (z : ℚ) (hz : 0 ≤ z) : jsMod (z + 2000) 2000 = jsMod z 2000 := by
  unfold jsMod jsTrunc
  have hq : (z + 2000) / 2000 = z / 2000 + 1 := by
    rw [add_div, div_self (by norm_num : (2000 : ℚ) ≠ 0)]
  have h1 : 0 ≤ z / 2000 := by positivity
  have h2 : 0 ≤ z / 2000 + 1 := by linarith
  rw [hq, if_pos h2, if_pos h1, Int.floor_add_one]
  push_cast
  ring

/-- C3 (amended): for every nonnegative longitudinal position z (z ≥ 0 is the
regime the road code ever queries; the JS remainder breaks periodicity below
zero), the curvature function satisfies
`curvature(z) = curvature(z + ROAD_LENGTH)` with `ROAD_LENGTH = 2000`: the
function reduces z modulo ROAD_LENGTH to a cycle position, brackets it
between two track control points, eases the fraction with `3t² - 2t³`,
linearly interpolates the turn intensity and scales by `LANE_WIDTH * 5.0`. -/
theorem c3_curvature_periodic (z : ℚ) (hz : 0 ≤ z) :
    GameWorld.getTrackXPositionAtZ z = GameWorld.getTrackXPositionAtZ (z + ROAD_LENGTH) := by
  unfold GameWorld.getTrackXPositionAtZ trackXFromZ ROAD_LENGTH
  rw [jsMod_add_self z hz]

/-- C3 witness: the periodicity theorem applied at z = 3. -/
theorem c3_witness :
    (0 : ℚ) ≤ 3 ∧
    GameWorld.getTrackXPositionAtZ 3 = GameWorld.getTrackXPositionAtZ (3 + ROAD_LENGTH) :=
  ⟨by norm_num, c3_curvature_periodic 3 (by norm_num)⟩

set_option maxRecDepth 100000 in
/-- C5: the road supply does not keep pace with a vehicle advancing at the
integrator's per-frame maximum of `MAX_SPEED * 0.1 = 500` units.  In the run
`c5Run` (fresh world of 1000 segments with `roadZMax = 10000`, world update
every frame), after 21 frames the tracked maximum extent has only reached
10500, so the vehicle's legal frame-22 advance puts it at z = 11000 and
`roadZMax - z = -500 < 0`: the vehicle has outrun the generated road. -/
theorem c5_road_outrun :
    (c5Run dummyOps 21).1.roadZMax - ((c5Run dummyOps 21).2 + MAX_SPEED * (1 / 10)) < 0 := by
  with_unfolding_all decide

/-- C8 counterexample: the speed ratios are not NaN-guarded.  The steering
effectiveness factor is NaN at speed -10 (Math.pow with negative base and
exponent 0.7 is NaN, and NaN survives `Math.max`) — the result is `none` for
every choice of the `pow07` stand-in, here instantiated with the identity;
negative speed is reachable: one reverse frame from the constructor state
already leaves the speed negative, and at that state the factor is NaN.  The
collision velocity rescale divides 0 by 0 when the pre-collision speed is 0,
so the rescaled velocity is NaN. -/
theorem c8_counterexample :
    steeringSpeedFactor (fun b => b) (-10) = none ∧
    collideVelocityRescale 0 ⟨1, 2, 3⟩ = none ∧
    (Vehicle.update dummyOps Vehicle.initial
        ⟨false, false, true, false, false⟩ (1 / 10) none).speed < 0 ∧
    steeringSpeedFactor (fun b => b)
        (Vehicle.update dummyOps Vehicle.initial
          ⟨false, false, true, false, false⟩ (1 / 10) none).speed = none := by
  with_unfolding_all decide

/-- C8 (amended): the ratio computations are NaN-free exactly on the guarded
side of the failure: the steering-effectiveness factor is a defined (non-NaN)
value whenever the speed is nonnegative, and the collision velocity rescale
is defined whenever the pre-collision speed is nonzero. -/
theorem c8_no_nan_when_guarded (pow07 : ℚ → ℚ) (speed oldSpeed : ℚ) (v : Vec3)
    (hs : 0 ≤ speed) (ho : oldSpeed ≠ 0) :
    (steeringSpeedFactor pow07 speed).isSome = true ∧
    (collideVelocityRescale oldSpeed v).isSome = true := by
  constructor
  · unfold steeringSpeedFactor
    rw [if_neg (not_lt.mpr (div_nonneg hs (by norm_num [MAX_SPEED])))]
    rfl
  · unfold collideVelocityRescale
    rw [if_neg ho]
    rfl

/-- C8 witness: the guarded theorem applied at speed 0 (the zero case the
claim singles out) and pre-collision speed 30. -/
theorem c8_witness :
    (steeringSpeedFactor (fun b => b) 0).isSome = true ∧
    (collideVelocityRescale 30 ⟨1, 2, 3⟩).isSome = true :=
  c8_no_nan_when_guarded (fun b => b) 0 30 ⟨1, 2, 3⟩ le_rfl (by norm_num)

theorem Vehicle.integrate_y_ge (s : Vehicle) (dt : ℚ) :
    1 / 2 ≤ (Vehicle.integrate s dt).position.y := by
  unfold Vehicle.integrate
  dsimp only
  split_ifs with h
  · exact le_of_eq (by rfl)
  · exact le_of_not_lt h

theorem Vehicle.csi_position (ops : NumOps) (s : Vehicle)
    (world : Option (List Segment)) (inp : Input) (dt : ℚ) :
    (Vehicle.checkSurfaceInteraction ops s world inp dt).position = s.position := by
  unfold Vehicle.checkSurfaceInteraction
  dsimp only
  repeat' (first | split | dsimp only)

theorem Vehicle.uwr_position (s : Vehicle) :
    (Vehicle.updateWheelRotation s).position = s.position := rfl

theorem Vehicle.uvv_position (ops : NumOps) (s : Vehicle) :
    (Vehicle.updateVehicleVectors ops s).position = s.position := rfl

/-- C7: the ground-floor invariant.  For every starting state with vertical
position at least the minimum clearance 0.5, every input and every delta
time, the vertical position is still at least 0.5 after `Vehicle.update`
(the integration step clamps it unconditionally); and whenever the
integration clamp engages (the integrated vertical position falls below 0.5)
while the frame's vertical velocity is negative, the post-clamp vertical
velocity is 0. -/
theorem c7_ground_floor (ops : NumOps) (s : Vehicle) (inp : Input)
    (deltaTime : ℚ) (world : Option (List Segment))
    (_h : 1 / 2 ≤ s.position.y) :
    1 / 2 ≤ (Vehicle.update ops s inp deltaTime world).position.y ∧
    (∀ (t : Vehicle) (dt : ℚ),
      t.position.y + (t.velocity.y + t.acceleration.y * dt) * dt < 1 / 2 →
      t.velocity.y + t.acceleration.y * dt < 0 →
      (Vehicle.integrate t dt).velocity.y = 0) := by
  constructor
  · unfold Vehicle.update Vehicle.updateTail
    rw [Vehicle.uvv_position, Vehicle.uwr_position, Vehicle.csi_position]
    exact Vehicle.integrate_y_ge _ _
  · intro t dt hpos hvel
    unfold Vehicle.integrate
    dsimp only [Vec3.add, Vec3.smul, Vec3.sub, Vec3.dot]
    rw [if_pos ⟨hpos, hvel⟩]

/-- C7 witness: the ground-floor theorem applied at the constructor state
(one idle frame) and, for the clamp conjunct, at a vehicle at minimum
clearance falling at -10 units/s. -/
theorem c7_witness :
    1 / 2 ≤ (Vehicle.update dummyOps Vehicle.initial
        ⟨false, false, false, false, false⟩ (1 / 10) none).position.y ∧
    (Vehicle.integrate fallingVehicle (1 / 10)).velocity.y = 0 :=
  ⟨(c7_ground_floor dummyOps Vehicle.initial ⟨false, false, false, false, false⟩
      (1 / 10) none (by with_unfolding_all decide)).1,
   (c7_ground_floor dummyOps Vehicle.initial ⟨false, false, false, false, false⟩
      (1 / 10) none (by with_unfolding_all decide)).2 fallingVehicle (1 / 10)
      (by with_unfolding_all decide) (by with_unfolding_all decide)⟩

theorem positionRoadSegment_fresh (ops : NumOps) (seg : Segment) (pz z : ℚ)
    (hz : seg.position.z = z) :
    roadOffsetFresh (GameWorld.positionRoadSegment ops seg pz z) := by
  unfold roadOffsetFresh GameWorld.positionRoadSegment GameWorld.getTrackXPositionAtZ
  dsimp only
  rw [hz]

theorem quickLoop_fresh (ops : NumOps) (pz : ℚ) :
    ∀ (n : ℕ) (segs : List Segment) (maxZ : ℚ),
      (∀ s ∈ segs, roadOffsetFresh s) →
      ∀ s' ∈ (quickLoop ops pz n segs maxZ).1, roadOffsetFresh s' := by
  intro n
  induction n with
  | zero =>
    intro segs maxZ h s' hs'
    cases segs with
    | nil => simp [quickLoop] at hs'
    | cons a rest => simp only [quickLoop] at hs'; exact h s' hs'
  | succ k ih =>
    intro segs maxZ h s' hs'
    cases segs with
    | nil => simp [quickLoop] at hs'
    | cons a rest =>
      simp only [quickLoop] at hs'
      rcases List.mem_cons.mp hs' with h1 | h1
      · subst h1
        by_cases hc : 500 < pz - a.position.z
        · rw [if_pos hc]
          exact positionRoadSegment_fresh ops _ pz _ rfl
        · rw [if_neg hc]
          exact h a (List.mem_cons_self a rest)
      · exact ih rest _ (fun s hs => h s (List.mem_cons_of_mem a hs)) s' h1

theorem fullLoop_fresh (ops : NumOps) (pz : ℚ) :
    ∀ (segs : List Segment) (maxZ : ℚ) (recycled : ℕ),
      (∀ s ∈ segs, roadOffsetFresh s) →
      ∀ s' ∈ (fullLoop ops pz segs maxZ recycled).1, roadOffsetFresh s' := by
  intro segs
  induction segs with
  | nil => intro maxZ recycled h s' hs'; simp [fullLoop] at hs'
  | cons a rest ih =>
    intro maxZ recycled h s' hs'
    simp only [fullLoop] at hs'
    by_cases h50 : 50 ≤ recycled
    · rw [if_pos h50] at hs'
      exact h s' hs'
    · rw [if_neg h50] at hs'
      have hhead : ∀ s'' ∈
          [(if 1000 < pz - a.position.z then
              (GameWorld.positionRoadSegment ops
                { a with position := { a.position with z := maxZ + SEGMENT_LENGTH } }
                pz (maxZ + SEGMENT_LENGTH),
               maxZ + SEGMENT_LENGTH, recycled + 1)
            else (a, maxZ, recycled)).1], roadOffsetFresh s'' := by
        intro s'' hs''
        rcases List.mem_singleton.mp hs'' with h1
        subst h1
        by_cases hc : 1000 < pz - a.position.z
        · rw [if_pos hc]
          exact positionRoadSegment_fresh ops _ pz _ rfl
        · rw [if_neg hc]
          exact h a (List.mem_cons_self a rest)
      by_cases hbrk : 3000 <
          (if 1000 < pz - a.position.z then
              (GameWorld.positionRoadSegment ops
                { a with position := { a.position with z := maxZ + SEGMENT_LENGTH } }
                pz (maxZ + SEGMENT_LENGTH),
               maxZ + SEGMENT_LENGTH, recycled + 1)
            else (a, maxZ, recycled)).2.1 - pz
      · rw [if_pos hbrk] at hs'
        rcases List.mem_cons.mp hs' with h1 | h1
        · exact hhead s' (h1 ▸ List.mem_singleton_self _)
        · exact h s' (List.mem_cons_of_mem a h1)
      · rw [if_neg hbrk] at hs'
        rcases List.mem_cons.mp hs' with h1 | h1
        · exact hhead s' (h1 ▸ List.mem_singleton_self _)
        · exact ih _ _ (fun s hs => h s (List.mem_cons_of_mem a hs)) s' h1

theorem GameWorld.resampleBounds_segments (w : GameWorld) (b : Bool) :
    (GameWorld.resampleBounds w b).roadSegments = w.roadSegments := by
  unfold GameWorld.resampleBounds
  split <;> rfl

theorem fullProcess_fresh (ops : NumOps) (w : GameWorld) (pz : ℚ) (b : Bool)
    (h : ∀ s ∈ w.roadSegments, roadOffsetFresh s) :
    ∀ s' ∈ (GameWorld.fullProcess ops w pz b).roadSegments, roadOffsetFresh s' := by
  unfold GameWorld.fullProcess
  dsimp only
  have h' : ∀ s ∈ (GameWorld.resampleBounds w b).roadSegments, roadOffsetFresh s := by
    rw [GameWorld.resampleBounds_segments]; exact h
  split
  · exact h
  · split
    · split
      · exact fullLoop_fresh ops pz _ _ _ h'
      · exact fullLoop_fresh ops pz _ _ _ h'
    · exact h'

/-- C4: segment offsets are never stale.  If every road segment's stored
lateral offset equals the curvature function at its current longitudinal
position, then after any call to `recycleRoadSegments` (any of its paths:
quick emergency extension, full recycling pass, or no-op) the same holds: in
particular every segment the pass relocates ahead of the vehicle has its
offset recomputed by `positionRoadSegment` at its new z, never reused from
its old position. -/
theorem c4_recycled_offsets_fresh (ops : NumOps) (w : GameWorld) (pz : ℚ)
    (h : ∀ seg ∈ w.roadSegments, roadOffsetFresh seg) :
    ∀ seg ∈ (GameWorld.recycleRoadSegments ops w pz).roadSegments,
      roadOffsetFresh seg := by
  unfold GameWorld.recycleRoadSegments
  dsimp only
  split
  · exact fullProcess_fresh ops _ pz _ h
  · split
    · exact fullProcess_fresh ops _ pz _ h
    · split
      · exact quickLoop_fresh ops pz _ _ _ h
      · exact h

/-- C4 witness: the invariant theorem applied to a one-segment world whose
segment sits at the origin with the curvature offset 0, with the player at
z = 0 (the quick path runs and leaves the segment in place). -/
theorem c4_witness :
    roadOffsetFresh (Segment.mk ⟨0, 0, 0⟩ 0 0 0) :=
  c4_recycled_offsets_fresh dummyOps c4World 0
    (by
      intro seg hs
      simp only [c4World] at hs
      rcases List.mem_singleton.mp hs with h
      subst h
      unfold roadOffsetFresh
      with_unfolding_all decide)
    (Segment.mk ⟨0, 0, 0⟩ 0 0 0)
    (by with_unfolding_all decide)
